import Mathlib

/-!
Verification development for the Interview Helper CLI (`app.py`).

The program's decision logic is:
  * `try_parse_json_once` : decode raw model output as JSON, falling back to
    the substring from the first brace to the last brace;
  * `attempt_model_repair` : one extra generation request followed by a
    re-parse (the network call is modelled by passing the repaired text in);
  * `main` : the two-stage orchestrator (input check, planning call, parse,
    optional repair, file writes, answering call).

JSON values and the decoder model Python's `json` module on the fragment the
program exercises (null/bool/int/string/array/object, `\uXXXX` escapes;
floats and the NaN/Infinity extensions are not modelled).
-/

/-- JSON values as produced by `json.loads` (integers only; floats unused). -/
inductive JValue where
  | null : JValue
  | bool (b : Bool) : JValue
  | num (n : Int) : JValue
  | str (s : String) : JValue
  | arr (elems : List JValue) : JValue
  | obj (fields : List (String × JValue)) : JValue

namespace json

/-- Skip JSON whitespace (space, tab, newline, carriage return). -/
def skipWs : List Char → List Char
  | c :: cs => if c = ' ' ∨ c = '\t' ∨ c = '\n' ∨ c = '\r' then skipWs cs else c :: cs
  | [] => []

/-- Value of a decimal digit character. -/
def digitVal (c : Char) : Nat := c.toNat - 48

/-- Value of a hexadecimal digit character. -/
def hexVal (c : Char) : Nat :=
  if '0' ≤ c ∧ c ≤ '9' then c.toNat - 48
  else if 'a' ≤ c ∧ c ≤ 'f' then c.toNat - 87
  else c.toNat - 55

def isHexDigit (c : Char) : Bool :=
  ('0' ≤ c ∧ c ≤ '9') ∨ ('a' ≤ c ∧ c ≤ 'f') ∨ ('A' ≤ c ∧ c ≤ 'F')

/-- Consume the rest of a string literal (the opening quote already read). -/
def parseStringRest : List Char → List Char → Except String (String × List Char)
  | [], _ => .error "Unterminated string"
  | c :: rest, acc =>
    if c = '"' then .ok (String.mk acc.reverse, rest)
    else if c = '\\' then
      match rest with
      | [] => .error "Unterminated string"
      | e :: rest2 =>
        if e = '"' then parseStringRest rest2 ('"' :: acc)
        else if e = '\\' then parseStringRest rest2 ('\\' :: acc)
        else if e = '/' then parseStringRest rest2 ('/' :: acc)
        else if e = 'n' then parseStringRest rest2 ('\n' :: acc)
        else if e = 't' then parseStringRest rest2 ('\t' :: acc)
        else if e = 'r' then parseStringRest rest2 ('\r' :: acc)
        else if e = 'b' then parseStringRest rest2 (Char.ofNat 8 :: acc)
        else if e = 'f' then parseStringRest rest2 (Char.ofNat 12 :: acc)
        else if e = 'u' then
          match rest2 with
          | h1 :: h2 :: h3 :: h4 :: rest3 =>
            if isHexDigit h1 ∧ isHexDigit h2 ∧ isHexDigit h3 ∧ isHexDigit h4 then
              let n := ((hexVal h1 * 16 + hexVal h2) * 16 + hexVal h3) * 16 + hexVal h4
              parseStringRest rest3 (Char.ofNat n :: acc)
            else .error "Invalid \\uXXXX escape"
          | _ => .error "Invalid \\uXXXX escape"
        else .error "Invalid \\escape"
    else if c.toNat < 32 then .error "Invalid control character"
    else parseStringRest rest (c :: acc)

/-- Consume a run of decimal digits, accumulating their value. -/
def takeDigits : List Char → Nat → Nat × List Char
  | c :: rest, acc =>
    if c.isDigit then takeDigits rest (acc * 10 + digitVal c) else (acc, c :: rest)
  | [], acc => (acc, [])

/-- Parse an unsigned JSON integer (no leading zeros, as in Python's json). -/
def parseUInt : List Char → Except String (Nat × List Char)
  | '0' :: rest => .ok (0, rest)
  | c :: rest =>
    if c.isDigit then .ok (takeDigits rest (digitVal c)) else .error "Expecting value"
  | [] => .error "Expecting value"

/-- Parse a JSON number (integer fragment). -/
def parseNumber : List Char → Except String (JValue × List Char)
  | '-' :: rest =>
    match parseUInt rest with
    | .error e => .error e
    | .ok (n, rest2) => .ok (JValue.num (-(n : Int)), rest2)
  | cs =>
    match parseUInt cs with
    | .error e => .error e
    | .ok (n, rest2) => .ok (JValue.num (n : Int), rest2)

/-- Check that `lit` is a prefix of `cs`, returning the remainder. -/
def matchLit (lit : List Char) (cs : List Char) : Option (List Char) :=
  match lit, cs with
  | [], rest => some rest
  | l :: ls, c :: rest => if c = l then matchLit ls rest else none
  | _ :: _, [] => none

mutual

/-- Parse one JSON value from the head of the input (whitespace already skipped). -/
def parseValue : Nat → List Char → Except String (JValue × List Char)
  | 0, _ => .error "Too deeply nested"
  | Nat.succ fuel, cs =>
    match cs with
    | [] => .error "Expecting value"
    | c :: rest =>
      if c = 'n' then
        match matchLit ['u', 'l', 'l'] rest with
        | some rest2 => .ok (JValue.null, rest2)
        | none => .error "Expecting value"
      else if c = 't' then
        match matchLit ['r', 'u', 'e'] rest with
        | some rest2 => .ok (JValue.bool true, rest2)
        | none => .error "Expecting value"
      else if c = 'f' then
        match matchLit ['a', 'l', 's', 'e'] rest with
        | some rest2 => .ok (JValue.bool false, rest2)
        | none => .error "Expecting value"
      else if c = '"' then
        match parseStringRest rest [] with
        | .error e => .error e
        | .ok (s, rest2) => .ok (JValue.str s, rest2)
      else if c = '-' ∨ c.isDigit then parseNumber (c :: rest)
      else if c = '[' then
        match skipWs rest with
        | ']' :: rest2 => .ok (JValue.arr [], rest2)
        | cs2 => parseArrItems fuel cs2 []
      else if c = '\x7b' then
        match skipWs rest with
        | '\x7d' :: rest2 => .ok (JValue.obj [], rest2)
        | cs2 => parseObjItems fuel cs2 []
      else .error "Expecting value"

/-- Parse the elements of a non-empty JSON array. -/
def parseArrItems : Nat → List Char → List JValue → Except String (JValue × List Char)
  | 0, _, _ => .error "Too deeply nested"
  | Nat.succ fuel, cs, acc =>
    match parseValue fuel cs with
    | .error e => .error e
    | .ok (v, rest) =>
      match skipWs rest with
      | ',' :: rest2 => parseArrItems fuel (skipWs rest2) (acc ++ [v])
      | ']' :: rest2 => .ok (JValue.arr (acc ++ [v]), rest2)
      | _ => .error "Expecting comma delimiter or end of array"

/-- Parse the members of a non-empty JSON object. -/
def parseObjItems : Nat → List Char → List (String × JValue) → Except String (JValue × List Char)
  | 0, _, _ => .error "Too deeply nested"
  | Nat.succ fuel, cs, acc =>
    match cs with
    | '"' :: rest =>
      match parseStringRest rest [] with
      | .error e => .error e
      | .ok (k, rest1) =>
        match skipWs rest1 with
        | ':' :: rest2 =>
          match parseValue fuel (skipWs rest2) with
          | .error e => .error e
          | .ok (v, rest3) =>
            match skipWs rest3 with
            | ',' :: rest4 => parseObjItems fuel (skipWs rest4) (acc ++ [(k, v)])
            | '\x7d' :: rest4 => .ok (JValue.obj (acc ++ [(k, v)]), rest4)
            | _ => .error "Expecting comma delimiter or end of object"
        | _ => .error "Expecting colon delimiter"
    | _ => .error "Expecting property name enclosed in double quotes"

end

/-- Model of Python's `json.loads`: decode one value, require only trailing
whitespace after it ("Extra data" otherwise). -/
def loads (s : String) : Except String JValue :=
  match parseValue (s.toList.length + 1) (skipWs s.toList) with
  | .error e => .error e
  | .ok (v, rest) => if skipWs rest = [] then .ok v else .error "Extra data"

end json

/-! ## Python string helpers used by `app.py` -/

/-- `str.find` for a single character: index of the first occurrence
(`cs.length` when absent; `app.py` only calls it under an `in` guard). -/
def pyFind : List Char → Char → Nat
  | [], _ => 0
  | c :: cs, t => if c = t then 0 else pyFind cs t + 1

/-- `str.rfind` for a single character: index of the last occurrence
(only used under an `in` guard, as in `app.py`). -/
def pyRfind (cs : List Char) (t : Char) : Nat :=
  cs.length - 1 - pyFind cs.reverse t

/-- Python whitespace stripped by `str.strip` (ASCII fragment). -/
def pyIsSpace (c : Char) : Bool :=
  c = ' ' ∨ c = '\t' ∨ c = '\n' ∨ c = '\r' ∨ c.toNat = 11 ∨ c.toNat = 12

/-- `str.strip()`: remove leading and trailing whitespace. -/
def pyStrip (s : String) : String :=
  String.mk (((s.toList.dropWhile pyIsSpace).reverse.dropWhile pyIsSpace).reverse)

/-- Python truthiness of a decoded JSON value (`if data:` / `if not plan_data:`). -/
def pyTruthy : JValue → Bool
  | .null => false
  | .bool b => b
  | .num n => decide (n ≠ 0)
  | .str s => decide (s ≠ "")
  | .arr l => !l.isEmpty
  | .obj l => !l.isEmpty

/-- Truthiness of an `Optional[dict]`: `None` is falsy. -/
def pyTruthyOpt : Option JValue → Bool
  | some v => pyTruthy v
  | none => false

/-- Rendering of an `Optional[str]` inside a Python f-string (`None` prints as "None"). -/
def optErrStr : Option String → String
  | some e => e
  | none => "None"

/-! ## `try_parse_json_once` (app.py lines 107-123) -/

/-- The slice `raw_text[raw_text.find("\x7b") : raw_text.rfind("\x7d") + 1]`
(empty when the last closing brace precedes the first opening brace, as in
Python slicing). -/
def candidateOf (raw : String) : String :=
  String.mk ((raw.toList.drop (pyFind raw.toList '\x7b')).take
    (pyRfind raw.toList '\x7d' + 1 - pyFind raw.toList '\x7b'))

/-- `try_parse_json_once(raw_text)`: direct decode, then — whenever the text
contains both a brace character of each kind — one retry on the
first-brace-to-last-brace substring. Returns `(data, error_message)`. -/
def try_parse_json_once (raw_text : String) : Option JValue × Option String :=
  match json.loads raw_text with
  | .ok v => (some v, none)
  | .error e1 =>
    if '\x7b' ∈ raw_text.toList ∧ '\x7d' ∈ raw_text.toList then
      match json.loads (candidateOf raw_text) with
      | .ok v => (some v, none)
      | .error e2 => (none, some ("JSON parsing failed (initial + substring): " ++ e2))
    else (none, some ("JSON parsing failed: " ++ e1))

/-! ## `attempt_model_repair` (app.py lines 125-150)

The function issues exactly one generation request and parses its output;
the orchestrator records the request itself, and the repaired text arrives
here as the argument `repaired`. -/

/-- `attempt_model_repair`: parse the repaired output; on a truthy decode
return it, otherwise return `None` plus a diagnostic embedding the raw
repair output and the parse error. -/
def attempt_model_repair (repaired : String) : Option JValue × Option String :=
  match try_parse_json_once repaired with
  | (data, err) =>
    if pyTruthyOpt data then (data, none)
    else (none, some ("Repair attempt failed. Raw repair output:\n" ++ repaired ++
      "\n\nParse error: " ++ optErrStr err))

/-! ## `json.dump(plan_data, f, indent=2, ensure_ascii=False)` -/

namespace json

/-- Escape one character inside a JSON string literal, `ensure_ascii=False`
style: only the quote, backslash and control characters are escaped;
everything else (including non-ASCII) is written literally. -/
def escChar (c : Char) : String :=
  if c = '"' then "\\\""
  else if c = '\\' then "\\\\"
  else if c = '\n' then "\\n"
  else if c = '\t' then "\\t"
  else if c = '\r' then "\\r"
  else if c.toNat = 8 then "\\b"
  else if c.toNat = 12 then "\\f"
  else if c.toNat < 32 then "\\u00" ++
    String.mk [Char.ofNat (if c.toNat / 16 < 10 then 48 + c.toNat / 16 else 87 + c.toNat / 16),
               Char.ofNat (if c.toNat % 16 < 10 then 48 + c.toNat % 16 else 87 + c.toNat % 16)]
  else String.mk [c]

/-- Concatenation of a list of strings. -/
def concatAll : List String → String
  | [] => ""
  | x :: xs => x ++ concatAll xs

/-- Serialize a string as a JSON string literal (`ensure_ascii=False`). -/
def encStr (s : String) : String :=
  "\"" ++ concatAll (s.toList.map escChar) ++ "\""

/-- `",\n"`-join used by the indented serializer. -/
def joinComma : List String → String
  | [] => ""
  | [x] => x
  | x :: y :: rest => x ++ ",\n" ++ joinComma (y :: rest)

/-- Indentation of `indent=2` at nesting depth `lvl`. -/
def ind (lvl : Nat) : String := String.mk (List.replicate (2 * lvl) ' ')

mutual

/-- Serializer matching `json.dumps(v, indent=2, ensure_ascii=False)`. -/
def dumpVal : JValue → Nat → String
  | .null, _ => "null"
  | .bool true, _ => "true"
  | .bool false, _ => "false"
  | .num n, _ => toString n
  | .str s, _ => encStr s
  | .arr [], _ => "[]"
  | .arr (v :: vs), lvl =>
    "[\n" ++ joinComma (dumpArrItems (v :: vs) (lvl + 1)) ++ "\n" ++ ind lvl ++ "]"
  | .obj [], _ => "\x7b\x7d"
  | .obj (kv :: kvs), lvl =>
    "\x7b\n" ++ joinComma (dumpObjItems (kv :: kvs) (lvl + 1)) ++ "\n" ++ ind lvl ++ "\x7d"

def dumpArrItems : List JValue → Nat → List String
  | [], _ => []
  | v :: vs, lvl => (ind lvl ++ dumpVal v lvl) :: dumpArrItems vs lvl

def dumpObjItems : List (String × JValue) → Nat → List String
  | [], _ => []
  | (k, v) :: kvs, lvl => (ind lvl ++ encStr k ++ ": " ++ dumpVal v lvl) :: dumpObjItems kvs lvl

end

/-- `json.dumps(v, indent=2, ensure_ascii=False)` at top level. -/
def dumps (v : JValue) : String := dumpVal v 0

end json

/-! ## Schema predicate (used only to state spec claims; `app.py` never checks it) -/

/-- Key presence in a decoded object. -/
def hasKey (v : JValue) (k : String) : Bool :=
  match v with
  | .obj kvs => kvs.any (fun kv => kv.1 = k)
  | _ => false

/-- The three-field plan schema (`steps`, `assumptions`, `success_criteria`). -/
def matchesPlanSchema (v : JValue) : Bool :=
  hasKey v "steps" && hasKey v "assumptions" && hasKey v "success_criteria"

/-! ## The two-stage orchestrator `main` (app.py lines 155-262)

Generation calls are modelled by the three strings the external service would
return (`planOut`, `repairOut`, `answerOut`); the trace records which calls
were issued, in order, and which files were written, in order. Transport
errors and the API-key check are outside every claim and not modelled. -/

/-- Which generation request a call is. -/
inductive StageKind where
  | planning : StageKind
  | repairStage : StageKind
  | answering : StageKind
deriving DecidableEq, Repr

/-- Observable effects of one run: generation calls issued and files written
(name, contents), each in program order. -/
structure RunTrace where
  genCalls : List StageKind
  filesWritten : List (String × String)
deriving Repr

/-- Outcome of one run of `main`. -/
inductive RunOutcome where
  | missingInput : RunOutcome
  | repairFailed (plan_raw : String) (repair_err : String) : RunOutcome
  | success (plan : JValue) (repaired : Bool) (final_md : String) : RunOutcome

/-- The branch of `main` after the first parse came back falsy: one repair
call, then either the success path or the terminal failure (app.py
lines 212-262). -/
def runRepairPath (plan_raw repairOut answerOut : String) : RunOutcome × RunTrace :=
  match attempt_model_repair repairOut with
  | (some plan, _) =>
    (.success plan true answerOut,
     ⟨[.planning, .repairStage, .answering],
      [("plan.json", json.dumps plan), ("output.md", answerOut)]⟩)
  | (none, repair_err) =>
    (.repairFailed plan_raw (optErrStr repair_err),
     ⟨[.planning, .repairStage], []⟩)

/-- `main`: strip the four inputs, halt on a missing input, otherwise issue
the planning call, parse (with the one-time repair on a falsy result), save
`plan.json`, issue the answering call and save `output.md`. -/
def runMain (roleRaw interviewerRaw jobDescRaw resumeRaw
    planOut repairOut answerOut : String) : RunOutcome × RunTrace :=
  if pyStrip roleRaw = "" ∨ pyStrip interviewerRaw = "" ∨
     pyStrip jobDescRaw = "" ∨ pyStrip resumeRaw = "" then
    (.missingInput, ⟨[], []⟩)
  else
    match try_parse_json_once planOut with
    | (some plan_data, _) =>
      if pyTruthy plan_data then
        (.success plan_data false answerOut,
         ⟨[.planning, .answering],
          [("plan.json", json.dumps plan_data), ("output.md", answerOut)]⟩)
      else runRepairPath planOut repairOut answerOut
    | (none, _) => runRepairPath planOut repairOut answerOut

/-- Spec-side serializer for comparison: "serialized with stable key order
steps, assumptions, success_criteria, human-readable indentation, non-ASCII
characters preserved literally". -/
def specStableOrderDump (steps assumptions success_criteria : List JValue) : String :=
  json.dumps (.obj [("steps", .arr steps), ("assumptions", .arr assumptions),
    ("success_criteria", .arr success_criteria)])

/-! ## Supporting lemmas -/

/-- A decode success short-circuits `try_parse_json_once` at the first attempt. -/
theorem try_parse_json_once_of_loads_ok (raw : String) (v : JValue)
    (h : json.loads raw = .ok v) : try_parse_json_once raw = (some v, none) := by
  unfold try_parse_json_once
  rw [h]

/-- An object carrying the three plan keys is Python-truthy. -/
theorem pyTruthy_of_matchesPlanSchema (v : JValue) (h : matchesPlanSchema v = true) :
    pyTruthy v = true := by
  cases v with
  | null => simp [matchesPlanSchema, hasKey] at h
  | bool b => simp [matchesPlanSchema, hasKey] at h
  | num n => simp [matchesPlanSchema, hasKey] at h
  | str s => simp [matchesPlanSchema, hasKey] at h
  | arr l => simp [matchesPlanSchema, hasKey] at h
  | obj kvs =>
    cases kvs with
    | nil => simp [matchesPlanSchema, hasKey] at h
    | cons kv t => rfl

/-- On a truthy first-attempt decode, the orchestrator takes the direct
success path: planning and answering calls only, both files written. -/
theorem runMain_direct_success (r i j a po ro ao : String) (v : JValue)
    (hparse : try_parse_json_once po = (some v, none))
    (htruthy : pyTruthy v = true)
    (hmiss : ¬(pyStrip r = "" ∨ pyStrip i = "" ∨ pyStrip j = "" ∨ pyStrip a = "")) :
    runMain r i j a po ro ao =
      (.success v false ao,
       ⟨[.planning, .answering], [("plan.json", json.dumps v), ("output.md", ao)]⟩) := by
  unfold runMain
  rw [if_neg hmiss, hparse]
  simp only [htruthy, if_true]

/-! ## C2 -/

/-- C2: for every raw text that decodes as JSON matching the three-field
schema, `try_parse_json_once` returns the decoded record with no error on the
first attempt, and no run of the orchestrator fed that planning output ever
issues a repair request. -/
theorem C2_valid_schema_json_parses_first_attempt (raw : String) (v : JValue)
    (hok : json.loads raw = .ok v) (hschema : matchesPlanSchema v = true) :
    try_parse_json_once raw = (some v, none) ∧
    ∀ r i j a ro ao, StageKind.repairStage ∉ (runMain r i j a raw ro ao).2.genCalls := by
  have hparse := try_parse_json_once_of_loads_ok raw v hok
  refine ⟨hparse, ?_⟩
  intro r i j a ro ao
  by_cases hmiss : pyStrip r = "" ∨ pyStrip i = "" ∨ pyStrip j = "" ∨ pyStrip a = ""
  · unfold runMain
    rw [if_pos hmiss]
    simp
  · rw [runMain_direct_success r i j a raw ro ao v hparse
      (pyTruthy_of_matchesPlanSchema v hschema) hmiss]
    simp

/-- C2 witness: a concrete schema-valid planning output is accepted on the
first attempt of a concrete run, with no repair call. -/
theorem C2_witness :
    try_parse_json_once
        "\x7b\"steps\": [\"s1\"], \"assumptions\": [\"a1\"], \"success_criteria\": [\"c1\"]\x7d" =
      (some (JValue.obj [("steps", JValue.arr [JValue.str "s1"]),
        ("assumptions", JValue.arr [JValue.str "a1"]),
        ("success_criteria", JValue.arr [JValue.str "c1"])]), none) ∧
    StageKind.repairStage ∉
      (runMain "Backend Engineer" "Hiring Manager" "desc" "resume"
        "\x7b\"steps\": [\"s1\"], \"assumptions\": [\"a1\"], \"success_criteria\": [\"c1\"]\x7d"
        "r" "md").2.genCalls := by
  have h := C2_valid_schema_json_parses_first_attempt
    "\x7b\"steps\": [\"s1\"], \"assumptions\": [\"a1\"], \"success_criteria\": [\"c1\"]\x7d"
    (JValue.obj [("steps", JValue.arr [JValue.str "s1"]),
      ("assumptions", JValue.arr [JValue.str "a1"]),
      ("success_criteria", JValue.arr [JValue.str "c1"])]) rfl rfl
  exact ⟨h.1, h.2 "Backend Engineer" "Hiring Manager" "desc" "resume" "r" "md"⟩

/-! ## C5 -/

/-- C5 counterexample: `\x7b"foo": 1\x7d` decodes to an object carrying none
of the three plan fields, yet `try_parse_json_once` returns it as the parsed
record with no error, and a concrete run accepts it and proceeds to write
both files — key presence is never checked. -/
theorem C5_counterexample :
    json.loads "\x7b\"foo\": 1\x7d" = .ok (JValue.obj [("foo", JValue.num 1)]) ∧
    matchesPlanSchema (JValue.obj [("foo", JValue.num 1)]) = false ∧
    try_parse_json_once "\x7b\"foo\": 1\x7d" =
      (some (JValue.obj [("foo", JValue.num 1)]), none) ∧
    (runMain "a" "b" "c" "d" "\x7b\"foo\": 1\x7d" "r" "md").1 =
      .success (JValue.obj [("foo", JValue.num 1)]) false "md" := by
  exact ⟨rfl, rfl, rfl, rfl⟩

/-- C5 amended: `try_parse_json_once` returns whatever value decoding yields,
with no shape validation at all; any truthy decoded value — whether or not
the three fields are present — is carried to the success path by the
orchestrator. -/
theorem C5_no_schema_validation (raw : String) (v : JValue)
    (hok : json.loads raw = .ok v) :
    try_parse_json_once raw = (some v, none) ∧
    ∀ r i j a ro ao,
      ¬(pyStrip r = "" ∨ pyStrip i = "" ∨ pyStrip j = "" ∨ pyStrip a = "") →
      pyTruthy v = true →
      (runMain r i j a raw ro ao).1 = .success v false ao := by
  have hparse := try_parse_json_once_of_loads_ok raw v hok
  refine ⟨hparse, ?_⟩
  intro r i j a ro ao hmiss htruthy
  rw [runMain_direct_success r i j a raw ro ao v hparse htruthy hmiss]

/-- C5 amended witness: the schema-less object `\x7b"foo": 1\x7d` flows to a
successful outcome of a concrete run. -/
theorem C5_witness :
    try_parse_json_once "\x7b\"foo\": 1\x7d" =
      (some (JValue.obj [("foo", JValue.num 1)]), none) ∧
    (runMain "x" "y" "z" "w" "\x7b\"foo\": 1\x7d" "r" "final").1 =
      .success (JValue.obj [("foo", JValue.num 1)]) false "final" := by
  have h := C5_no_schema_validation "\x7b\"foo\": 1\x7d"
    (JValue.obj [("foo", JValue.num 1)]) rfl
  exact ⟨h.1, h.2 "x" "y" "z" "w" "r" "final" (by decide) rfl⟩

/-! ## C6 -/

/-- C6: whenever one of the four inputs is empty (or whitespace-only, hence
empty after the strip), the run halts with the missing-input outcome having
issued zero generation calls and written zero files. -/
theorem C6_missing_input_halts (r i j a po ro ao : String)
    (h : pyStrip r = "" ∨ pyStrip i = "" ∨ pyStrip j = "" ∨ pyStrip a = "") :
    runMain r i j a po ro ao = (.missingInput, ⟨[], []⟩) := by
  unfold runMain
  rw [if_pos h]

/-- C6 witness: a whitespace-only job description halts a concrete run with
no generation calls. -/
theorem C6_witness :
    runMain "Backend Engineer" "Recruiter" "   " "resume text" "p" "r" "a" =
      (.missingInput, ⟨[], []⟩) := by
  exact C6_missing_input_halts "Backend Engineer" "Recruiter" "   " "resume text"
    "p" "r" "a" (Or.inr (Or.inr (Or.inl rfl)))

/-! ## C4 -/

/-- C4 counterexample: in `"\x7dz\x7b"` the last closing brace (index 0)
precedes the first opening brace (index 2), so by the claim no substring
retry may happen and the error must be the plain original-decode form; the
code nevertheless retries on the (empty) slice and reports the two-attempt
error. -/
theorem C4_counterexample :
    pyRfind "\x7dz\x7b".toList '\x7d' < pyFind "\x7dz\x7b".toList '\x7b' ∧
    try_parse_json_once "\x7dz\x7b" =
      (none, some "JSON parsing failed (initial + substring): Expecting value") ∧
    ("JSON parsing failed (initial + substring): Expecting value" : String) ≠
      "JSON parsing failed: Expecting value" := by
  exact ⟨by decide, rfl, by decide⟩

/-- C4 amended: on direct decode failure the substring retry is attempted
exactly when the raw text contains a brace character of each kind,
regardless of their order; the candidate decoded once is the slice from the
first opening brace to the last closing brace, which is empty when the last
closing brace precedes the first opening brace; when a brace of either kind
is absent, no retry happens and the failure is the original decode error. -/
theorem C4_substring_retry_condition (raw : String) (e1 : String)
    (herr : json.loads raw = .error e1) :
    (('\x7b' ∈ raw.toList ∧ '\x7d' ∈ raw.toList) →
      try_parse_json_once raw =
        (match json.loads (candidateOf raw) with
         | .ok v => (some v, none)
         | .error e2 => (none, some ("JSON parsing failed (initial + substring): " ++ e2)))) ∧
    (¬('\x7b' ∈ raw.toList ∧ '\x7d' ∈ raw.toList) →
      try_parse_json_once raw = (none, some ("JSON parsing failed: " ++ e1))) ∧
    (pyRfind raw.toList '\x7d' < pyFind raw.toList '\x7b' → candidateOf raw = "") := by
  refine ⟨?_, ?_, ?_⟩
  · intro hbr
    unfold try_parse_json_once
    rw [herr]
    dsimp only
    rw [if_pos hbr]
  · intro hbr
    unfold try_parse_json_once
    rw [herr]
    dsimp only
    rw [if_neg hbr]
  · intro hlt
    unfold candidateOf
    have h0 : pyRfind raw.toList '\x7d' + 1 - pyFind raw.toList '\x7b' = 0 := by omega
    rw [h0]
    rfl

/-- C4 amended witness: with both braces present but misordered the retry is
attempted on the empty candidate, and with only one brace kind present no
retry happens. -/
theorem C4_witness :
    try_parse_json_once "\x7d y \x7b" =
      (none, some ("JSON parsing failed (initial + substring): " ++ "Expecting value")) ∧
    candidateOf "\x7d y \x7b" = "" ∧
    try_parse_json_once "only \x7b here" =
      (none, some ("JSON parsing failed: " ++ "Expecting value")) := by
  have h := C4_substring_retry_condition "\x7d y \x7b" "Expecting value" rfl
  have h2 := C4_substring_retry_condition "only \x7b here" "Expecting value" rfl
  refine ⟨?_, h.2.2 (by decide), h2.2.1 (by decide)⟩
  rw [h.1 ⟨by decide, by decide⟩]
  rfl

/-! ## C8 -/

/-- Whether `needle` occurs as a contiguous substring of `hay`. -/
def containsSub (hay needle : List Char) : Bool :=
  (List.range (hay.length + 1)).any (fun i => needle.isPrefixOf (hay.drop i))

/-- C8 counterexample: for `"abc \x7b bad \x7d"` both decode attempts fail;
the original decode error is "Expecting value", but the returned failure
message carries only the substring attempt's error — the original error text
appears nowhere in it. -/
theorem C8_counterexample :
    json.loads "abc \x7b bad \x7d" = .error "Expecting value" ∧
    try_parse_json_once "abc \x7b bad \x7d" =
      (none, some
        "JSON parsing failed (initial + substring): Expecting property name enclosed in double quotes") ∧
    containsSub
      "JSON parsing failed (initial + substring): Expecting property name enclosed in double quotes".toList
      "Expecting value".toList = false := by
  exact ⟨rfl, rfl, by decide⟩

/-- C8 amended: when both decode attempts were made and failed, the failure
message is the two-attempt prefix followed by the substring decode error
only (the original decode error is dropped); when the substring heuristic
was not attempted, the failure message is the plain prefix followed by the
original decode error. -/
theorem C8_failure_diagnostics :
    (∀ raw e1 e2, json.loads raw = .error e1 →
      ('\x7b' ∈ raw.toList ∧ '\x7d' ∈ raw.toList) →
      json.loads (candidateOf raw) = .error e2 →
      try_parse_json_once raw =
        (none, some ("JSON parsing failed (initial + substring): " ++ e2))) ∧
    (∀ raw e1, json.loads raw = .error e1 →
      ¬('\x7b' ∈ raw.toList ∧ '\x7d' ∈ raw.toList) →
      try_parse_json_once raw = (none, some ("JSON parsing failed: " ++ e1))) := by
  constructor
  · intro raw e1 e2 herr hbr herr2
    unfold try_parse_json_once
    rw [herr]
    dsimp only
    rw [if_pos hbr, herr2]
  · intro raw e1 herr hbr
    unfold try_parse_json_once
    rw [herr]
    dsimp only
    rw [if_neg hbr]

/-- C8 amended witness: both message shapes realized at concrete inputs. -/
theorem C8_witness :
    try_parse_json_once "x \x7b1\x7d" =
      (none, some ("JSON parsing failed (initial + substring): " ++
        "Expecting property name enclosed in double quotes")) ∧
    try_parse_json_once "no json at all" =
      (none, some ("JSON parsing failed: " ++ "Expecting value")) := by
  exact ⟨C8_failure_diagnostics.1 "x \x7b1\x7d" "Expecting value"
      "Expecting property name enclosed in double quotes" rfl ⟨by decide, by decide⟩ rfl,
    C8_failure_diagnostics.2 "no json at all" "Expecting value" rfl (by decide)⟩

/-! ## Orchestrator path lemmas -/

/-- Truthiness of a present optional value is the value's truthiness. -/
theorem pyTruthyOpt_some (v : JValue) : pyTruthyOpt (some v) = pyTruthy v := rfl

/-- When the repaired output's parse is falsy, `attempt_model_repair` reports
failure with the diagnostic message. -/
theorem attempt_model_repair_fail (ro : String)
    (h : pyTruthyOpt (try_parse_json_once ro).1 = false) :
    attempt_model_repair ro =
      (none, some ("Repair attempt failed. Raw repair output:\n" ++ ro ++
        "\n\nParse error: " ++ optErrStr (try_parse_json_once ro).2)) := by
  unfold attempt_model_repair
  rcases hro : try_parse_json_once ro with ⟨d, e⟩
  rw [hro] at h
  dsimp only at h ⊢
  rw [if_neg (by simp [h])]

/-- The failure branch of the repair path: terminal outcome, no files. -/
theorem runRepairPath_fail (po ro ao : String)
    (h : pyTruthyOpt (try_parse_json_once ro).1 = false) :
    runRepairPath po ro ao =
      (.repairFailed po ("Repair attempt failed. Raw repair output:\n" ++ ro ++
        "\n\nParse error: " ++ optErrStr (try_parse_json_once ro).2),
       ⟨[.planning, .repairStage], []⟩) := by
  unfold runRepairPath
  rw [attempt_model_repair_fail ro h]
  rfl

/-- The repair path issues the planning and repair calls, plus the answering
call exactly on repair success. -/
theorem runRepairPath_genCalls (po ro ao : String) :
    (runRepairPath po ro ao).2.genCalls = [.planning, .repairStage, .answering] ∨
    (runRepairPath po ro ao).2.genCalls = [.planning, .repairStage] := by
  unfold runRepairPath
  rcases attempt_model_repair ro with ⟨d, e⟩
  cases d with
  | none => right; rfl
  | some v => left; rfl

/-- With all inputs present and a falsy first parse, `main` runs the repair
path. -/
theorem runMain_to_repairPath (r i j a po ro ao : String)
    (hmiss : ¬(pyStrip r = "" ∨ pyStrip i = "" ∨ pyStrip j = "" ∨ pyStrip a = ""))
    (h : pyTruthyOpt (try_parse_json_once po).1 = false) :
    runMain r i j a po ro ao = runRepairPath po ro ao := by
  unfold runMain
  rw [if_neg hmiss]
  rcases hpo : try_parse_json_once po with ⟨d, e⟩
  rw [hpo] at h
  cases d with
  | none => rfl
  | some v =>
    dsimp only at h ⊢
    rw [pyTruthyOpt_some] at h
    rw [if_neg (by simp [h])]

/-- Every run issues one of four possible generation-call sequences. -/
theorem runMain_genCalls_cases (r i j a po ro ao : String) :
    (runMain r i j a po ro ao).2.genCalls = [] ∨
    (runMain r i j a po ro ao).2.genCalls = [.planning, .answering] ∨
    (runMain r i j a po ro ao).2.genCalls = [.planning, .repairStage, .answering] ∨
    (runMain r i j a po ro ao).2.genCalls = [.planning, .repairStage] := by
  unfold runMain
  by_cases hmiss : pyStrip r = "" ∨ pyStrip i = "" ∨ pyStrip j = "" ∨ pyStrip a = ""
  · rw [if_pos hmiss]; left; rfl
  · rw [if_neg hmiss]
    rcases hpo : try_parse_json_once po with ⟨d, e⟩
    cases d with
    | none =>
      dsimp only
      rcases runRepairPath_genCalls po ro ao with h | h
      · right; right; left; exact h
      · right; right; right; exact h
    | some v =>
      dsimp only
      by_cases ht : pyTruthy v = true
      · rw [if_pos ht]; right; left; rfl
      · rw [if_neg ht]
        rcases runRepairPath_genCalls po ro ao with h | h
        · right; right; left; exact h
        · right; right; right; exact h

/-! ## C1 -/

/-- C1: every run issues at most one repair request; when the inputs are
present and the planning output's parse comes back falsy, exactly one repair
request is issued, and if the repaired output also fails to parse the run
halts right there — no further repair attempt and no answering call. -/
theorem C1_repair_escalation_at_most_once (r i j a po ro ao : String) :
    ((runMain r i j a po ro ao).2.genCalls.count StageKind.repairStage ≤ 1) ∧
    (¬(pyStrip r = "" ∨ pyStrip i = "" ∨ pyStrip j = "" ∨ pyStrip a = "") →
     pyTruthyOpt (try_parse_json_once po).1 = false →
     (runMain r i j a po ro ao).2.genCalls.count StageKind.repairStage = 1 ∧
     (pyTruthyOpt (try_parse_json_once ro).1 = false →
      (runMain r i j a po ro ao).2.genCalls = [.planning, .repairStage])) := by
  constructor
  · rcases runMain_genCalls_cases r i j a po ro ao with h | h | h | h <;>
      rw [h] <;> decide
  · intro hmiss hfirst
    have hmain := runMain_to_repairPath r i j a po ro ao hmiss hfirst
    constructor
    · rw [hmain]
      rcases runRepairPath_genCalls po ro ao with h | h <;> rw [h] <;> decide
    · intro hsecond
      rw [hmain, runRepairPath_fail po ro ao hsecond]

/-- C1 witness: a run whose planning output and repaired output both fail to
parse issues exactly one repair call and stops after it. -/
theorem C1_witness :
    (runMain "a" "b" "c" "d" "oops" "bad" "md").2.genCalls.count
      StageKind.repairStage = 1 ∧
    (runMain "a" "b" "c" "d" "oops" "bad" "md").2.genCalls =
      [.planning, .repairStage] := by
  have h := (C1_repair_escalation_at_most_once "a" "b" "c" "d" "oops" "bad" "md").2
    (by decide) rfl
  exact ⟨h.1, h.2 rfl⟩

/-! ## C7 -/

/-- C7: when the repaired output also fails to parse, the run ends in the
terminal repair-failure outcome with no answering call and no file written —
neither `plan.json` nor `output.md`. -/
theorem C7_repair_failure_writes_nothing (r i j a po ro ao : String)
    (hmiss : ¬(pyStrip r = "" ∨ pyStrip i = "" ∨ pyStrip j = "" ∨ pyStrip a = ""))
    (hfirst : pyTruthyOpt (try_parse_json_once po).1 = false)
    (hsecond : pyTruthyOpt (try_parse_json_once ro).1 = false) :
    runMain r i j a po ro ao =
      (.repairFailed po ("Repair attempt failed. Raw repair output:\n" ++ ro ++
        "\n\nParse error: " ++ optErrStr (try_parse_json_once ro).2),
       ⟨[.planning, .repairStage], []⟩) ∧
    StageKind.answering ∉ (runMain r i j a po ro ao).2.genCalls ∧
    (runMain r i j a po ro ao).2.filesWritten = [] := by
  have h := (runMain_to_repairPath r i j a po ro ao hmiss hfirst).trans
    (runRepairPath_fail po ro ao hsecond)
  refine ⟨h, ?_, ?_⟩
  · rw [h]
    show StageKind.answering ∉ [StageKind.planning, StageKind.repairStage]
    decide
  · rw [h]

/-- C7 witness: a concrete run whose planning output is prose and whose
repair output is still prose halts with the diagnostic and writes no file. -/
theorem C7_witness :
    runMain "Backend Engineer" "Recruiter" "desc" "cv" "plain prose" "more prose" "md" =
      (.repairFailed "plain prose"
        "Repair attempt failed. Raw repair output:\nmore prose\n\nParse error: JSON parsing failed: Expecting value",
       ⟨[.planning, .repairStage], []⟩) ∧
    (runMain "Backend Engineer" "Recruiter" "desc" "cv" "plain prose" "more prose" "md").2.filesWritten = [] := by
  have h := C7_repair_failure_writes_nothing "Backend Engineer" "Recruiter" "desc" "cv"
    "plain prose" "more prose" "md" (by decide) rfl rfl
  exact ⟨h.1, h.2.2⟩

/-! ## C10 -/

/-- C10: stage success is decided by Python truthiness, not decode success:
a planning output that decodes cleanly to a falsy value still sends the run
into the repair escalation, and a repair output that decodes cleanly to a
falsy value is still reported as a failed repair (with parse error "None"). -/
theorem C10_truthiness_decides_success (r i j a po ro ao : String) (v w : JValue)
    (hmiss : ¬(pyStrip r = "" ∨ pyStrip i = "" ∨ pyStrip j = "" ∨ pyStrip a = ""))
    (hpo : json.loads po = .ok v) (hv : pyTruthy v = false)
    (hro : json.loads ro = .ok w) (hw : pyTruthy w = false) :
    (runMain r i j a po ro ao).2.genCalls = [.planning, .repairStage] ∧
    (runMain r i j a po ro ao).1 =
      .repairFailed po ("Repair attempt failed. Raw repair output:\n" ++ ro ++
        "\n\nParse error: " ++ "None") := by
  have hparse := try_parse_json_once_of_loads_ok po v hpo
  have hparse2 := try_parse_json_once_of_loads_ok ro w hro
  have hfirst : pyTruthyOpt (try_parse_json_once po).1 = false := by
    rw [hparse]; exact hv
  have hsecond : pyTruthyOpt (try_parse_json_once ro).1 = false := by
    rw [hparse2]; exact hw
  have hmain := (runMain_to_repairPath r i j a po ro ao hmiss hfirst).trans
    (runRepairPath_fail po ro ao hsecond)
  rw [hmain]
  refine ⟨rfl, ?_⟩
  rw [hparse2]
  exact rfl

/-- C10 witness: `"\x7b\x7d"` decodes with no error yet triggers the repair
escalation, and a repair output of `"null"` decodes with no error yet is
reported as a failed repair. -/
theorem C10_witness :
    json.loads "\x7b\x7d" = .ok (JValue.obj []) ∧
    json.loads "null" = .ok JValue.null ∧
    (runMain "a" "b" "c" "d" "\x7b\x7d" "null" "md").2.genCalls =
      [.planning, .repairStage] ∧
    (runMain "a" "b" "c" "d" "\x7b\x7d" "null" "md").1 =
      .repairFailed "\x7b\x7d"
        "Repair attempt failed. Raw repair output:\nnull\n\nParse error: None" := by
  have h := C10_truthiness_decides_success "a" "b" "c" "d" "\x7b\x7d" "null" "md"
    (JValue.obj []) JValue.null (by decide) rfl rfl rfl rfl
  exact ⟨rfl, rfl, h.1, h.2⟩

/-! ## C3 -/

/-- `pyFind` hits the head immediately. -/
theorem pyFind_cons_self (c : Char) (t : List Char) : pyFind (c :: t) c = 0 := by
  simp [pyFind]

/-- `pyFind` skips over a block that does not contain the target. -/
theorem pyFind_append_of_not_mem (l1 l2 : List Char) (c : Char) (h : c ∉ l1) :
    pyFind (l1 ++ l2) c = l1.length + pyFind l2 c := by
  induction l1 with
  | nil => simp
  | cons a t ih =>
    have ha : ¬(a = c) := fun hac => h (hac ▸ List.mem_cons_self a t)
    have ht : c ∉ t := fun hct => h (List.mem_cons_of_mem a hct)
    simp only [List.cons_append, pyFind]
    rw [if_neg ha]
    show pyFind (t ++ l2) c + 1 = (a :: t).length + pyFind l2 c
    rw [ih ht]
    simp only [List.length_cons]
    omega

/-- C3 counterexample: the raw text `"see \x7b x \x7b\"a\": 1\x7d done"`
consists of the single valid JSON object `\x7b"a": 1\x7d` surrounded by
non-empty non-JSON prose, yet the parser recovers nothing, because the prose
itself contains a brace and the first-brace-to-last-brace slice is not valid
JSON. -/
theorem C3_counterexample :
    ("see \x7b x " ++ "\x7b\"a\": 1\x7d" ++ " done" : String) =
      "see \x7b x \x7b\"a\": 1\x7d done" ∧
    json.loads "\x7b\"a\": 1\x7d" = .ok (JValue.obj [("a", JValue.num 1)]) ∧
    ("see \x7b x " : String) ≠ "" ∧ (" done" : String) ≠ "" ∧
    (try_parse_json_once "see \x7b x \x7b\"a\": 1\x7d done").1 = none := by
  exact ⟨rfl, rfl, by decide, by decide, rfl⟩

/-- C3 amended: for raw text made of one valid JSON object surrounded by
non-empty prose, where the prose before it contains no opening brace and the
prose after it contains no closing brace, and whose direct decode fails,
`try_parse_json_once` recovers exactly the embedded object via the
first-brace-to-last-brace substring. -/
theorem C3_embedded_object_recovered (pre mid suf : String) (v : JValue) (e : String)
    (_hpre : pre ≠ "") (_hsuf : suf ≠ "")
    (hpreb : '\x7b' ∉ pre.toList) (hsufb : '\x7d' ∉ suf.toList)
    (hhead : mid.toList.head? = some '\x7b')
    (hlast : mid.toList.getLast? = some '\x7d')
    (hmid : json.loads mid = .ok v)
    (hfail : json.loads (pre ++ mid ++ suf) = .error e) :
    try_parse_json_once (pre ++ mid ++ suf) = (some v, none) := by
  have htl : (pre ++ mid ++ suf).toList = pre.toList ++ mid.toList ++ suf.toList := by
    simp [String.toList]
  obtain ⟨mtl, hmtl⟩ : ∃ t, mid.toList = '\x7b' :: t := by
    cases hml : mid.toList with
    | nil => rw [hml] at hhead; simp at hhead
    | cons c t =>
      rw [hml] at hhead
      simp only [List.head?_cons, Option.some.injEq] at hhead
      exact ⟨t, by rw [hhead]⟩
  obtain ⟨rtl, hrtl⟩ : ∃ t, mid.toList.reverse = '\x7d' :: t := by
    have hrev : mid.toList.reverse.head? = some '\x7d' := by
      rw [List.head?_reverse]; exact hlast
    cases hr : mid.toList.reverse with
    | nil => rw [hr] at hrev; simp at hrev
    | cons c t =>
      rw [hr] at hrev
      simp only [List.head?_cons, Option.some.injEq] at hrev
      exact ⟨t, by rw [hrev]⟩
  have hm1 : 1 ≤ mid.toList.length := by rw [hmtl]; simp
  have hmem1 : '\x7b' ∈ (pre ++ mid ++ suf).toList := by
    rw [htl, hmtl]; simp
  have hmem2 : '\x7d' ∈ (pre ++ mid ++ suf).toList := by
    have hmm : '\x7d' ∈ mid.toList := by
      rw [← List.mem_reverse, hrtl]; simp
    rw [htl]
    exact List.mem_append.mpr (Or.inl (List.mem_append.mpr (Or.inr hmm)))
  have hfind : pyFind (pre ++ mid ++ suf).toList '\x7b' = pre.toList.length := by
    rw [htl, List.append_assoc, pyFind_append_of_not_mem _ _ _ hpreb, hmtl,
      List.cons_append, pyFind_cons_self]
    omega
  have hrfind : pyRfind (pre ++ mid ++ suf).toList '\x7d' =
      pre.toList.length + mid.toList.length - 1 := by
    unfold pyRfind
    rw [htl, List.reverse_append, List.reverse_append]
    have hsufr : '\x7d' ∉ suf.toList.reverse := by
      rw [List.mem_reverse]; exact hsufb
    rw [pyFind_append_of_not_mem _ _ _ hsufr, hrtl, List.cons_append, pyFind_cons_self]
    simp only [List.length_append, List.length_reverse]
    omega
  have hcand : candidateOf (pre ++ mid ++ suf) = mid := by
    unfold candidateOf
    rw [hfind, hrfind, htl]
    have harith : pre.toList.length + mid.toList.length - 1 + 1 - pre.toList.length =
        mid.toList.length := by omega
    rw [harith, List.append_assoc, List.drop_left, List.take_left]
    rfl
  unfold try_parse_json_once
  rw [hfail]
  dsimp only
  rw [if_pos ⟨hmem1, hmem2⟩, hcand, hmid]

/-- C3 amended witness: a fenced-in object between plain prose lines is
recovered by the substring heuristic on a concrete input. -/
theorem C3_witness :
    try_parse_json_once
        ("Sure! Here is the plan:\n" ++
         "\x7b\"steps\": [\"s\"], \"assumptions\": [], \"success_criteria\": []\x7d" ++
         "\nHope this helps.") =
      (some (JValue.obj [("steps", JValue.arr [JValue.str "s"]),
        ("assumptions", JValue.arr []), ("success_criteria", JValue.arr [])]), none) := by
  exact C3_embedded_object_recovered "Sure! Here is the plan:\n"
    "\x7b\"steps\": [\"s\"], \"assumptions\": [], \"success_criteria\": []\x7d"
    "\nHope this helps."
    (JValue.obj [("steps", JValue.arr [JValue.str "s"]),
      ("assumptions", JValue.arr []), ("success_criteria", JValue.arr [])])
    "Expecting value"
    (by decide) (by decide) (by decide) (by decide) rfl rfl rfl rfl

/-! ## C9 -/

/-- Ordinary characters (printable, not quote or backslash — in particular
all non-ASCII characters) are written unescaped by the serializer. -/
theorem escChar_eq_self (c : Char) (h31 : 31 < c.toNat) (hq : c ≠ '"') (hb : c ≠ '\\') :
    json.escChar c = String.mk [c] := by
  have hn : ¬(c = '\n') := fun h => by subst h; exact absurd h31 (by decide)
  have ht : ¬(c = '\t') := fun h => by subst h; exact absurd h31 (by decide)
  have hr : ¬(c = '\r') := fun h => by subst h; exact absurd h31 (by decide)
  have h8 : ¬(c.toNat = 8) := by omega
  have h12 : ¬(c.toNat = 12) := by omega
  have hlt : ¬(c.toNat < 32) := by omega
  unfold json.escChar
  rw [if_neg hq, if_neg hb, if_neg hn, if_neg ht, if_neg hr, if_neg h8, if_neg h12,
    if_neg hlt]

/-- Concatenating the serializations of ordinary characters reproduces the
original character list. -/
theorem concatAll_escChar_ordinary (l : List Char)
    (h : ∀ c ∈ l, 31 < c.toNat ∧ c ≠ '"' ∧ c ≠ '\\') :
    json.concatAll (l.map json.escChar) = String.mk l := by
  induction l with
  | nil => rfl
  | cons c t ih =>
    obtain ⟨h1, h2, h3⟩ := h c (List.mem_cons_self c t)
    simp only [List.map_cons, json.concatAll]
    rw [escChar_eq_self c h1 h2 h3, ih (fun x hx => h x (List.mem_cons_of_mem c hx))]
    rfl

/-- A string of ordinary characters is serialized literally between quotes:
non-ASCII text is preserved, not escaped. -/
theorem encStr_literal (s : String)
    (h : ∀ c ∈ s.toList, 31 < c.toNat ∧ c ≠ '"' ∧ c ≠ '\\') :
    json.encStr s = "\"" ++ s ++ "\"" := by
  unfold json.encStr
  rw [concatAll_escChar_ordinary s.toList h]
  rfl

/-- A successful repair path pins down the files written. -/
theorem runRepairPath_success_inv (po ro ao : String) (plan : JValue) (rep : Bool)
    (md : String) (tr : RunTrace)
    (h : runRepairPath po ro ao = (.success plan rep md, tr)) :
    md = ao ∧ tr.filesWritten = [("plan.json", json.dumps plan), ("output.md", md)] := by
  unfold runRepairPath at h
  rcases ham : attempt_model_repair ro with ⟨d, e⟩
  rw [ham] at h
  cases d with
  | none => simp at h
  | some w =>
    rw [Prod.mk.injEq] at h
    obtain ⟨h1, h2⟩ := h
    simp only [RunOutcome.success.injEq] at h1
    obtain ⟨hw, -, hao⟩ := h1
    subst hw
    subst hao
    subst h2
    exact ⟨rfl, rfl⟩

/-- Any successful run writes exactly `plan.json` (the serialized plan) then
`output.md` (the answering output). -/
theorem runMain_success_inv (r i j a po ro ao : String) (plan : JValue) (rep : Bool)
    (md : String) (tr : RunTrace)
    (h : runMain r i j a po ro ao = (.success plan rep md, tr)) :
    md = ao ∧ tr.filesWritten = [("plan.json", json.dumps plan), ("output.md", md)] := by
  unfold runMain at h
  by_cases hmiss : pyStrip r = "" ∨ pyStrip i = "" ∨ pyStrip j = "" ∨ pyStrip a = ""
  · rw [if_pos hmiss] at h
    simp at h
  · rw [if_neg hmiss] at h
    rcases hpo : try_parse_json_once po with ⟨d, e⟩
    rw [hpo] at h
    cases d with
    | none => exact runRepairPath_success_inv po ro ao plan rep md tr h
    | some v =>
      dsimp only at h
      by_cases htr : pyTruthy v = true
      · rw [if_pos htr] at h
        rw [Prod.mk.injEq] at h
        obtain ⟨h1, h2⟩ := h
        simp only [RunOutcome.success.injEq] at h1
        obtain ⟨hv, -, hao⟩ := h1
        subst hv
        subst hao
        subst h2
        exact ⟨rfl, rfl⟩
      · rw [if_neg htr] at h
        exact runRepairPath_success_inv po ro ao plan rep md tr h

/-- C9 counterexample: a schema-valid planning output whose keys arrive in
the order assumptions, steps, success_criteria is persisted in that decoded
order — not in the stable order steps, assumptions, success_criteria claimed
by the spec. -/
theorem C9_counterexample :
    json.loads "\x7b\"assumptions\": [\"x\"], \"steps\": [\"s\"], \"success_criteria\": [\"c\"]\x7d" =
      .ok (JValue.obj [("assumptions", JValue.arr [JValue.str "x"]),
        ("steps", JValue.arr [JValue.str "s"]),
        ("success_criteria", JValue.arr [JValue.str "c"])]) ∧
    matchesPlanSchema (JValue.obj [("assumptions", JValue.arr [JValue.str "x"]),
      ("steps", JValue.arr [JValue.str "s"]),
      ("success_criteria", JValue.arr [JValue.str "c"])]) = true ∧
    (runMain "a" "b" "c" "d"
      "\x7b\"assumptions\": [\"x\"], \"steps\": [\"s\"], \"success_criteria\": [\"c\"]\x7d"
      "r" "md").2.filesWritten =
      [("plan.json", json.dumps (JValue.obj [("assumptions", JValue.arr [JValue.str "x"]),
        ("steps", JValue.arr [JValue.str "s"]),
        ("success_criteria", JValue.arr [JValue.str "c"])])), ("output.md", "md")] ∧
    json.dumps (JValue.obj [("assumptions", JValue.arr [JValue.str "x"]),
        ("steps", JValue.arr [JValue.str "s"]),
        ("success_criteria", JValue.arr [JValue.str "c"])]) ≠
      specStableOrderDump [JValue.str "s"] [JValue.str "x"] [JValue.str "c"] := by
  exact ⟨rfl, rfl, rfl, by decide⟩

/-- C9 amended: every successful run persists exactly the structured-record
file (the decoded plan serialized with 2-space indentation, keys in decoded
order — which is the stable order steps, assumptions, success_criteria
precisely when the record was decoded in that order) followed by the
document file; strings of ordinary characters, non-ASCII included, are
serialized literally rather than escaped. -/
theorem C9_plan_serialization (r i j a po ro ao : String) (plan : JValue)
    (rep : Bool) (md : String) (tr : RunTrace)
    (h : runMain r i j a po ro ao = (.success plan rep md, tr)) :
    tr.filesWritten = [("plan.json", json.dumps plan), ("output.md", md)] ∧
    (∀ ss as cr,
      plan = .obj [("steps", .arr ss), ("assumptions", .arr as),
        ("success_criteria", .arr cr)] →
      json.dumps plan = specStableOrderDump ss as cr) ∧
    (∀ (s : String), (∀ c ∈ s.toList, 31 < c.toNat ∧ c ≠ '"' ∧ c ≠ '\\') →
      json.encStr s = "\"" ++ s ++ "\"") := by
  refine ⟨(runMain_success_inv r i j a po ro ao plan rep md tr h).2, ?_, ?_⟩
  · intro ss as cr hplan
    subst hplan
    rfl
  · intro s hs
    exact encStr_literal s hs

/-- C9 amended witness: a concrete run whose plan decodes in canonical key
order writes `plan.json` equal to the stable-order serialization, with the
non-ASCII text "café" preserved literally. -/
theorem C9_witness :
    (runMain "a" "b" "c" "d"
      "\x7b\"steps\": [\"café\"], \"assumptions\": [\"x\"], \"success_criteria\": [\"y\"]\x7d"
      "r" "md").2.filesWritten =
      [("plan.json", json.dumps (JValue.obj [("steps", JValue.arr [JValue.str "café"]),
        ("assumptions", JValue.arr [JValue.str "x"]),
        ("success_criteria", JValue.arr [JValue.str "y"])])), ("output.md", "md")] ∧
    json.dumps (JValue.obj [("steps", JValue.arr [JValue.str "café"]),
        ("assumptions", JValue.arr [JValue.str "x"]),
        ("success_criteria", JValue.arr [JValue.str "y"])]) =
      specStableOrderDump [JValue.str "café"] [JValue.str "x"] [JValue.str "y"] ∧
    json.encStr "café" = "\"" ++ "café" ++ "\"" := by
  have h := C9_plan_serialization "a" "b" "c" "d"
    "\x7b\"steps\": [\"café\"], \"assumptions\": [\"x\"], \"success_criteria\": [\"y\"]\x7d"
    "r" "md"
    (JValue.obj [("steps", JValue.arr [JValue.str "café"]),
      ("assumptions", JValue.arr [JValue.str "x"]),
      ("success_criteria", JValue.arr [JValue.str "y"])]) false "md"
    ⟨[.planning, .answering],
     [("plan.json", json.dumps (JValue.obj [("steps", JValue.arr [JValue.str "café"]),
        ("assumptions", JValue.arr [JValue.str "x"]),
        ("success_criteria", JValue.arr [JValue.str "y"])])), ("output.md", "md")]⟩ rfl
  exact ⟨h.1, h.2.1 [JValue.str "café"] [JValue.str "x"] [JValue.str "y"] rfl,
    h.2.2 "café" (by decide)⟩
